import Mathlib

/-!
Verification of `skbio/io/util.py` (scikit-bio I/O utilities).

The module under study resolves an input that is either a path/URL string
(text or bytes) or an already-open file-like object into a readable stream,
tracks an ownership flag, and provides scoped access (`open_file`,
`open_files`) that closes exactly the streams it opened when the scope exits.

Embedding conventions:
- Python byte strings are modelled by their character content, kept distinct
  from text strings by the `PyStr` tag (`text` vs `binary`), mirroring the
  Python 3 distinction between `str` and `bytes`.
- External effects (the native `open` primitive, the HTTP GET performed by
  the cached requests session, and `close` on a stream) are recorded in a
  call log inside an explicit state `St`; their outcomes are supplied by an
  environment `Env`.  Each call to `open` or the HTTP GET that succeeds
  allocates a stream with a fresh identifier from the state counter.
- Raised Python exceptions are modelled by `Except PyErr`; a computation
  returns its final state alongside the result so that effects performed
  before a raise remain observable.
- The scope body of a `with` statement is an arbitrary function
  `Stream' → St → St × Except PyErr α`: it receives the yielded stream and
  may itself perform effects or raise.
-/

namespace Skbio

/-- Characters allowed after the first character of a URL scheme, as in
`urllib.parse` (letters, digits, `+`, `-`, `.`). -/
def isSchemeChar (c : Char) : Bool :=
  c.isAlpha || c.isDigit || c == '+' || c == '-' || c == '.'

/-- Scan up to the first `:`; return the characters before it when they are
all scheme characters, `none` when no `:` occurs or a non-scheme character
appears first. -/
def schemeBefore : List Char → Option (List Char)
  | [] => none
  | c :: rest =>
      if c = ':' then some []
      else if isSchemeChar c then (schemeBefore rest).map (fun l => c :: l)
      else none

/-- Scheme component of `urlparse`: the (lower-cased) prefix before the first
`:` when it starts with a letter and consists of scheme characters, else the
empty string. -/
def urlscheme (s : String) : String :=
  match s.toList with
  | [] => ""
  | c :: rest =>
      if c.isAlpha then
        match schemeBefore rest with
        | some body => String.mk (Char.toLower c :: body.map Char.toLower)
        | none => ""
      else ""

/-- A Python string value: text (`str`) or bytes (`bytes`), modelled by its
character content with the type kept as a tag. -/
inductive PyStr where
  | text (s : String)
  | binary (b : String)
deriving DecidableEq

/-- Positional arguments forwarded to `open` (opaque payloads). -/
abbrev Args := List String

/-- Keyword arguments forwarded to `open` or `requests.get` (opaque payloads). -/
abbrev KwArgs := List (String × String)

/-- What kind of stream object a handle refers to: a file opened from a path,
an in-memory byte buffer wrapping an HTTP response body (Python `BytesIO`),
or an external caller-supplied object. -/
inductive StreamKind where
  | fileStream (path : PyStr)
  | memBytes (content : String)
  | external
deriving DecidableEq

/-- A stream object, identified by an allocation id plus its kind. -/
structure Stream' where
  id : Nat
  kind : StreamKind
deriving DecidableEq

/-- An input value to the opener: a text/byte string, or any other object,
which the code treats as an already-usable file-like stream. -/
inductive Value where
  | pstr (s : PyStr)
  | stream (s : Stream')
deriving DecidableEq

/-- An external call performed by the module: the native `open`, the HTTP
GET of the cached session, or `close` on a stream id. -/
inductive Call where
  | openCall (path : PyStr) (args : Args) (kwargs : KwArgs)
  | getCall (url : PyStr) (kwargs : KwArgs)
  | closeCall (id : Nat)
deriving DecidableEq

/-- Python exceptions that can escape the module: `raise_for_status` on a
4xx/5xx response, a transport failure inside `requests`, an `OSError` from
`open`, a `ValueError` from tuple unpacking, and a failure raised by the
scope body of the caller. -/
inductive PyErr where
  | httpError (status : Nat)
  | transportError
  | osError
  | valueError (msg : String)
  | userError (code : Nat)
deriving DecidableEq

/-- Effect state: the next fresh stream id and the log of external calls
performed so far, in order. -/
structure St where
  nextId : Nat
  log : List Call
deriving DecidableEq

/-- Append one external call to the log. -/
def pushCall (c : Call) (st : St) : St :=
  { st with log := st.log ++ [c] }

/-- Outcomes of the external world: the HTTP GET returns a status code and a
response body (`none` is a transport failure), the native `open` either
succeeds or raises (`none`). -/
structure Env where
  getResult : PyStr → KwArgs → Option (Nat × String)
  openResult : PyStr → Args → KwArgs → Option Unit

/-- Source `_is_string_or_bytes`: true when the value is a text string
(`isinstance(s, str)`) or a byte string (`isinstance(s, bytes)`). -/
def _is_string_or_bytes : Value → Bool
  | Value.pstr (PyStr.text _) => true
  | Value.pstr (PyStr.binary _) => true
  | Value.stream _ => false

/-- Scheme component of `requests.compat.urlparse(filepath_or).scheme`.
`urlparse` applied to a byte string returns a byte-string scheme, applied to
a text string a text scheme. -/
def urlparseScheme : PyStr → PyStr
  | PyStr.text s => PyStr.text (urlscheme s)
  | PyStr.binary b => PyStr.binary (urlscheme b)

/-- The membership test of the source comparing the parsed scheme with the
set holding the two text strings "http" and "https".  Under Python 3 a
byte-string scheme (as produced by `urlparse` on a `bytes` input) is never a
member: a bytes value never equals a text value. -/
def memHttpHttps : PyStr → Bool
  | PyStr.text s => s == "http" || s == "https"
  | PyStr.binary _ => false

/-- The URL branch of `_get_filehandle`: perform the GET through the cached
session, forwarding only the keyword arguments; `raise_for_status` raises
for a 4xx/5xx status; on success wrap the response body in a fresh in-memory
byte stream and return it with ownership flag `true`. -/
def getBranch (env : Env) (s : PyStr) (kwargs : KwArgs) (st : St) :
    St × Except PyErr (Stream' × Bool) :=
  let st1 := pushCall (Call.getCall s kwargs) st
  match env.getResult s kwargs with
  | none => (st1, Except.error PyErr.transportError)
  | some (status, content) =>
      if 400 ≤ status ∧ status < 600 then
        (st1, Except.error (PyErr.httpError status))
      else
        ({ st1 with nextId := st1.nextId + 1 },
         Except.ok ({ id := st1.nextId, kind := StreamKind.memBytes content }, true))

/-- The path branch of `_get_filehandle`: `open(filepath_or, *args, **kwargs)`,
forwarding all positional and keyword arguments; on success return a fresh
file stream with ownership flag `true`, on failure raise `OSError`. -/
def openBranch (env : Env) (s : PyStr) (args : Args) (kwargs : KwArgs) (st : St) :
    St × Except PyErr (Stream' × Bool) :=
  let st1 := pushCall (Call.openCall s args kwargs) st
  match env.openResult s args kwargs with
  | none => (st1, Except.error PyErr.osError)
  | some _ =>
      ({ st1 with nextId := st1.nextId + 1 },
       Except.ok ({ id := st1.nextId, kind := StreamKind.fileStream s }, true))

/-- Source `_get_filehandle`: when the input is a string or bytes, take the
URL branch if its parsed scheme is a member of the text set of "http" and
"https", else the path branch; any other value passes through
unchanged with ownership flag `false`. -/
def _get_filehandle (env : Env) (filepath_or : Value) (args : Args) (kwargs : KwArgs)
    (st : St) : St × Except PyErr (Stream' × Bool) :=
  match filepath_or with
  | Value.pstr s =>
      if memHttpHttps (urlparseScheme s) then getBranch env s kwargs st
      else openBranch env s args kwargs st
  | Value.stream s => (st, Except.ok (s, false))

/-- Source `open_file` context manager: resolve the input, yield the stream
to the scope body, and in the `finally` block close the stream exactly when
the ownership flag is true.  A failure during resolution propagates before
the body ever runs; a failure in the body still triggers the owned close. -/
def open_file {α : Type} (env : Env) (filepath_or : Value) (args : Args) (kwargs : KwArgs)
    (body : Stream' → St → St × Except PyErr α) (st : St) : St × Except PyErr α :=
  match _get_filehandle env filepath_or args kwargs st with
  | (st1, Except.error e) => (st1, Except.error e)
  | (st1, Except.ok (fh, own)) =>
      let r := body fh st1
      (if own then pushCall (Call.closeCall fh.id) r.1 else r.1, r.2)

/-- The list comprehension of `open_files`: resolve each element in order
with `_get_filehandle`; the first failure propagates immediately, with the
effects already performed kept in the state. -/
def resolveList (env : Env) (args : Args) (kwargs : KwArgs) :
    List Value → St → St × Except PyErr (List (Stream' × Bool))
  | [], st => (st, Except.ok [])
  | v :: vs, st =>
      match _get_filehandle env v args kwargs st with
      | (st1, Except.error e) => (st1, Except.error e)
      | (st1, Except.ok p) =>
          match resolveList env args kwargs vs st1 with
          | (st2, Except.error e) => (st2, Except.error e)
          | (st2, Except.ok ps) => (st2, Except.ok (p :: ps))

/-- The `finally` loop of `open_files`: walk the resolved pairs in order and
close each stream whose ownership flag is true. -/
def closeAll (pairs : List (Stream' × Bool)) (st : St) : St :=
  pairs.foldl (fun s p => if p.2 then pushCall (Call.closeCall p.1.id) s else s) st

/-- Source `open_files` context manager: resolve every element of the list,
unpack the pairs (`zip` of zero pairs cannot be unpacked into two tuples and
raises `ValueError`), yield the ordered tuple of streams, and in the
`finally` block close the owned streams in order. -/
def open_files {α : Type} (env : Env) (fp_list : List Value) (args : Args) (kwargs : KwArgs)
    (body : List Stream' → St → St × Except PyErr α) (st : St) : St × Except PyErr α :=
  match resolveList env args kwargs fp_list st with
  | (st1, Except.error e) => (st1, Except.error e)
  | (st1, Except.ok []) => (st1, Except.error (PyErr.valueError "not enough values to unpack"))
  | (st1, Except.ok (p :: ps)) =>
      let r := body ((p :: ps).map Prod.fst) st1
      (closeAll (p :: ps) r.1, r.2)

/-- Whether a call is a close of stream `i`. -/
def isCloseOf (i : Nat) : Call → Bool
  | Call.closeCall j => j == i
  | _ => false

/-- How many times stream `i` has been closed according to a log. -/
def closeCount (log : List Call) (i : Nat) : Nat :=
  (log.filter (isCloseOf i)).length

/-- Whether a call is a resolution call (an `open` or a GET, not a close). -/
def isResolveCall : Call → Bool
  | Call.closeCall _ => false
  | _ => true

/-- The close calls the `finally` loop of `open_files` emits: one close per
owned pair, in input order. -/
def ownedCloses (pairs : List (Stream' × Bool)) : List Call :=
  pairs.filterMap (fun p => if p.2 then some (Call.closeCall p.1.id) else none)

end Skbio

deriving instance DecidableEq for Except

namespace Skbio

/-- Counting closes distributes over log concatenation. -/
theorem closeCount_append (log cs : List Call) (i : Nat) :
    closeCount (log ++ cs) i = closeCount log i + closeCount cs i := by
  simp [closeCount, List.filter_append]

/-- An open call is not a close, so it leaves every close count unchanged. -/
theorem closeCount_openCall (log : List Call) (p : PyStr) (a : Args) (k : KwArgs) (i : Nat) :
    closeCount (log ++ [Call.openCall p a k]) i = closeCount log i := by
  simp [closeCount_append, closeCount, isCloseOf]

/-- A GET call is not a close, so it leaves every close count unchanged. -/
theorem closeCount_getCall (log : List Call) (p : PyStr) (k : KwArgs) (i : Nat) :
    closeCount (log ++ [Call.getCall p k]) i = closeCount log i := by
  simp [closeCount_append, closeCount, isCloseOf]

/-- Appending a close of the stream itself bumps its close count by one. -/
theorem closeCount_closeCall (log : List Call) (i : Nat) :
    closeCount (log ++ [Call.closeCall i]) i = closeCount log i + 1 := by
  simp [closeCount_append, closeCount, isCloseOf]

/-- The URL branch logs exactly one GET call carrying the keyword arguments. -/
theorem getBranch_log (env : Env) (s : PyStr) (kwargs : KwArgs) (st : St) :
    (getBranch env s kwargs st).1.log = st.log ++ [Call.getCall s kwargs] := by
  unfold getBranch
  rcases env.getResult s kwargs with _ | ⟨status, content⟩
  · simp [pushCall]
  · by_cases h : 400 ≤ status ∧ status < 600 <;> simp [h, pushCall]

/-- The path branch logs exactly one open call carrying all arguments. -/
theorem openBranch_log (env : Env) (s : PyStr) (args : Args) (kwargs : KwArgs) (st : St) :
    (openBranch env s args kwargs st).1.log = st.log ++ [Call.openCall s args kwargs] := by
  unfold openBranch
  rcases env.openResult s args kwargs with _ | u
  · simp [pushCall]
  · simp [pushCall]

/-- Unfolding equation: `_get_filehandle` on a string or byte input branches
on the scheme membership test. -/
theorem get_filehandle_pstr (env : Env) (ps : PyStr) (args : Args) (kwargs : KwArgs)
    (st : St) :
    _get_filehandle env (Value.pstr ps) args kwargs st
      = if memHttpHttps (urlparseScheme ps) then getBranch env ps kwargs st
        else openBranch env ps args kwargs st := rfl

/-- A successful URL branch always reports ownership `true`. -/
theorem getBranch_own (env : Env) (s : PyStr) (kwargs : KwArgs) (st : St)
    (fh : Stream') (own : Bool)
    (h : (getBranch env s kwargs st).2 = Except.ok (fh, own)) : own = true := by
  unfold getBranch at h
  cases hE : env.getResult s kwargs with
  | none => rw [hE] at h; simp at h
  | some pr =>
      rcases pr with ⟨status, content⟩
      rw [hE] at h
      by_cases hs : 400 ≤ status ∧ status < 600
      · simp [hs] at h
      · simp [hs] at h; exact h.2

/-- A successful path branch always reports ownership `true`. -/
theorem openBranch_own (env : Env) (s : PyStr) (args : Args) (kwargs : KwArgs) (st : St)
    (fh : Stream') (own : Bool)
    (h : (openBranch env s args kwargs st).2 = Except.ok (fh, own)) : own = true := by
  unfold openBranch at h
  cases hE : env.openResult s args kwargs with
  | none => rw [hE] at h; simp at h
  | some u => rw [hE] at h; simp at h; exact h.2

/-- On a string or byte input, `_get_filehandle` extends the log with exactly
one resolution call (an open or a GET). -/
theorem get_filehandle_pstr_log (env : Env) (ps : PyStr) (args : Args) (kwargs : KwArgs)
    (st : St) :
    ∃ c : Call, isResolveCall c = true ∧
      (_get_filehandle env (Value.pstr ps) args kwargs st).1.log = st.log ++ [c] := by
  rw [get_filehandle_pstr]
  by_cases h : memHttpHttps (urlparseScheme ps) = true
  · exact ⟨Call.getCall ps kwargs, rfl, by rw [if_pos h, getBranch_log]⟩
  · rw [Bool.not_eq_true] at h
    exact ⟨Call.openCall ps args kwargs, rfl, by rw [h]; simp [openBranch_log]⟩

/-- Resolution never emits a close call: every close count is unchanged by
a `_get_filehandle` step, whatever its outcome. -/
theorem get_filehandle_closeCount (env : Env) (v : Value) (args : Args) (kwargs : KwArgs)
    (st : St) (i : Nat) :
    closeCount (_get_filehandle env v args kwargs st).1.log i = closeCount st.log i := by
  cases v with
  | pstr ps =>
      rw [get_filehandle_pstr]
      by_cases h : memHttpHttps (urlparseScheme ps) = true
      · rw [if_pos h, getBranch_log, closeCount_getCall]
      · rw [Bool.not_eq_true] at h
        rw [h]
        simp [openBranch_log, closeCount_openCall]
  | stream s => rfl

/-- Inversion of a successful resolution of a cons list: the head resolves
first, then the tail, and the pair list is built in the same order. -/
theorem resolveList_cons_ok (env : Env) (args : Args) (kwargs : KwArgs)
    (v : Value) (vs : List Value) (st st2 : St) (pairs : List (Stream' × Bool))
    (h : resolveList env args kwargs (v :: vs) st = (st2, Except.ok pairs)) :
    ∃ st1 p ps, _get_filehandle env v args kwargs st = (st1, Except.ok p)
      ∧ resolveList env args kwargs vs st1 = (st2, Except.ok ps)
      ∧ pairs = p :: ps := by
  unfold resolveList at h
  rcases hg : _get_filehandle env v args kwargs st with ⟨stg, rg⟩
  rw [hg] at h
  cases rg with
  | error e => simp at h
  | ok p =>
      dsimp only at h
      rcases hr : resolveList env args kwargs vs stg with ⟨str, rr⟩
      rw [hr] at h
      cases rr with
      | error e => simp at h
      | ok ps =>
          simp at h
          exact ⟨stg, p, ps, rfl, by rw [hr, h.1], h.2.symm⟩

/-- A successful resolution produces exactly one pair per input element. -/
theorem resolveList_ok_length (env : Env) (args : Args) (kwargs : KwArgs) :
    ∀ (vs : List Value) (st st1 : St) (pairs : List (Stream' × Bool)),
      resolveList env args kwargs vs st = (st1, Except.ok pairs) →
      pairs.length = vs.length := by
  intro vs
  induction vs with
  | nil =>
      intro st st1 pairs h
      unfold resolveList at h
      simp at h
      simp [h.2]
  | cons v vs ih =>
      intro st st1 pairs h
      obtain ⟨stm, p, ps, hg, hr, hp⟩ := resolveList_cons_ok env args kwargs v vs st st1 pairs h
      rw [hp]
      simp [ih stm st1 ps hr]

/-- Each pair of a successful resolution is, position for position, the
result of an independent `_get_filehandle` call on the matching input. -/
theorem resolveList_ok_zip (env : Env) (args : Args) (kwargs : KwArgs) :
    ∀ (vs : List Value) (st st1 : St) (pairs : List (Stream' × Bool)),
      resolveList env args kwargs vs st = (st1, Except.ok pairs) →
      ∀ q ∈ vs.zip pairs, ∃ stA stB : St,
        _get_filehandle env q.1 args kwargs stA = (stB, Except.ok q.2) := by
  intro vs
  induction vs with
  | nil => intro st st1 pairs h q hq; simp at hq
  | cons v vs ih =>
      intro st st1 pairs h q hq
      obtain ⟨stm, p, ps, hg, hr, hp⟩ := resolveList_cons_ok env args kwargs v vs st st1 pairs h
      rw [hp] at hq
      simp [List.zip_cons_cons] at hq
      rcases hq with hq | hq
      · exact ⟨st, stm, by subst hq; exact hg⟩
      · exact ih stm st1 ps hr q hq

/-- Resolution performs no close: the state it returns (also on failure)
keeps every close count unchanged. -/
theorem resolveList_closeCount (env : Env) (args : Args) (kwargs : KwArgs) :
    ∀ (vs : List Value) (st : St) (i : Nat),
      closeCount (resolveList env args kwargs vs st).1.log i = closeCount st.log i := by
  intro vs
  induction vs with
  | nil => intro st i; rfl
  | cons v vs ih =>
      intro st i
      unfold resolveList
      rcases hg : _get_filehandle env v args kwargs st with ⟨stg, rg⟩
      have hgc : closeCount stg.log i = closeCount st.log i := by
        have := get_filehandle_closeCount env v args kwargs st i
        rw [hg] at this
        exact this
      cases rg with
      | error e => exact hgc
      | ok p =>
          dsimp only
          rcases hr : resolveList env args kwargs vs stg with ⟨str, rr⟩
          have hrc : closeCount str.log i = closeCount stg.log i := by
            have := ih stg i
            rw [hr] at this
            exact this
          cases rr with
          | error e => exact hrc.trans hgc
          | ok ps => exact hrc.trans hgc

/-- The `finally` loop of `open_files` appends exactly the owned close
calls, in input order. -/
theorem closeAll_eq (pairs : List (Stream' × Bool)) :
    ∀ st : St, closeAll pairs st = { st with log := st.log ++ ownedCloses pairs } := by
  induction pairs with
  | nil => intro st; simp [closeAll, ownedCloses]
  | cons p ps ih =>
      intro st
      rcases p with ⟨fh, own⟩
      cases own with
      | false => simp [closeAll, ownedCloses] at ih ⊢; rw [ih]
      | true =>
          simp [closeAll, ownedCloses] at ih ⊢
          rw [ih]
          simp [pushCall]

/-- A world where every GET succeeds with status 200 and body "abc" and
every path opens successfully. -/
def envAll : Env where
  getResult := fun _ _ => some (200, "abc")
  openResult := fun _ _ _ => some ()

/-- A world where every GET returns status 404. -/
def envErr : Env where
  getResult := fun _ _ => some (404, "")
  openResult := fun _ _ _ => some ()

/-- A world where opening the path "bad" raises and every other path opens. -/
def envBad : Env where
  getResult := fun _ _ => none
  openResult := fun p _ _ => if p = PyStr.text "bad" then none else some ()

/-- The initial effect state: no stream allocated, empty log. -/
def st0 : St := { nextId := 0, log := [] }

/-- A caller-supplied, already-open stream object. -/
def extStream : Stream' := { id := 7, kind := StreamKind.external }

/-- A scope body that raises. -/
def bodyRaise : Stream' → St → St × Except PyErr Nat :=
  fun _ s => (s, Except.error (PyErr.userError 3))

/-- A scope body over a list of streams that returns 7. -/
def body7 : List Stream' → St → St × Except PyErr Nat :=
  fun _ s => (s, Except.ok 7)

/-- A scope body that returns the stream it was handed. -/
def idBody : Stream' → St → St × Except PyErr Stream' :=
  fun fh s => (s, Except.ok fh)

/-- C1: `_get_filehandle` treats the input as a reference to be resolved —
performing an open or GET call and, whenever it succeeds, returning the
ownership flag true — precisely when the input is a text or byte string;
any other value is not classified as a string, is returned unchanged as the
stream with ownership flag false, and no effect is performed. -/
theorem C1_classify (env : Env) (args : Args) (kwargs : KwArgs) (st : St) :
    (∀ s : Stream', _is_string_or_bytes (Value.stream s) = false
        ∧ _get_filehandle env (Value.stream s) args kwargs st = (st, Except.ok (s, false)))
    ∧ ∀ ps : PyStr,
        _is_string_or_bytes (Value.pstr ps) = true
        ∧ (∃ c : Call, isResolveCall c = true ∧
            (_get_filehandle env (Value.pstr ps) args kwargs st).1.log = st.log ++ [c])
        ∧ ∀ fh : Stream', ∀ own : Bool,
            (_get_filehandle env (Value.pstr ps) args kwargs st).2 = Except.ok (fh, own) →
            own = true := by
  refine ⟨fun s => ⟨rfl, rfl⟩,
    fun ps => ⟨?_, get_filehandle_pstr_log env ps args kwargs st, ?_⟩⟩
  · cases ps <;> rfl
  · intro fh own h
    rw [get_filehandle_pstr] at h
    by_cases hm : memHttpHttps (urlparseScheme ps) = true
    · rw [if_pos hm] at h
      exact getBranch_own env ps kwargs st fh own h
    · rw [Bool.not_eq_true] at hm
      rw [hm] at h
      simp at h
      exact openBranch_own env ps args kwargs st fh own h

/-- C1 witness: a pre-opened stream passes through unchanged with ownership
false, and the string "a.txt" resolves with ownership true. -/
theorem C1_witness :
    (_get_filehandle envAll (Value.stream extStream) [] [] st0
        = (st0, Except.ok (extStream, false)))
    ∧ (true : Bool) = true :=
  ⟨((C1_classify envAll [] [] st0).1 extStream).2,
   ((C1_classify envAll [] [] st0).2 (PyStr.text "a.txt")).2.2
     { id := 0, kind := StreamKind.fileStream (PyStr.text "a.txt") } true rfl⟩

/-- C3: `open_file` on a pre-opened stream object behaves exactly as its
scope body applied to that very object: the same object is yielded, and no
effect — in particular no close of the object — is added by the component,
so its closed state is exactly what the body left. -/
theorem C3_passthrough {α : Type} (env : Env) (args : Args) (kwargs : KwArgs)
    (s : Stream') (body : Stream' → St → St × Except PyErr α) (st : St) :
    open_file env (Value.stream s) args kwargs body st = body s st
    ∧ closeCount (open_file env (Value.stream s) args kwargs body st).1.log s.id
        = closeCount (body s st).1.log s.id := by
  have h : open_file env (Value.stream s) args kwargs body st = body s st := rfl
  exact ⟨h, by rw [h]⟩

/-- C7 counterexample: in a world where every GET succeeds, the byte string
with content "http://x" is routed to the native open — an open call is
logged and a file stream for that very byte string is returned — while the
equivalent text string is routed to the HTTP GET.  Byte-string URLs
therefore do not take the GET branch as the claim states. -/
theorem C7_counterexample :
    _get_filehandle envAll (Value.pstr (PyStr.binary "http://x")) [] [] st0
      = ({ nextId := 1, log := [Call.openCall (PyStr.binary "http://x") [] []] },
         Except.ok ({ id := 0, kind := StreamKind.fileStream (PyStr.binary "http://x") }, true))
    ∧ _get_filehandle envAll (Value.pstr (PyStr.text "http://x")) [] [] st0
      = ({ nextId := 1, log := [Call.getCall (PyStr.text "http://x") []] },
         Except.ok ({ id := 0, kind := StreamKind.memBytes "abc" }, true)) :=
  ⟨rfl, rfl⟩

/-- C7 (amended): a byte-string input always takes the native path-open
branch of `_get_filehandle` — both for byte filesystem paths and for byte
strings whose content is an http/https URL — because the scheme that
`urlparse` produces for bytes is itself a byte string, and the membership
test against the text strings "http" and "https" is always false under the
Python 3 distinction between bytes and text. -/
theorem C7_amended (env : Env) (b : String) (args : Args) (kwargs : KwArgs) (st : St) :
    _get_filehandle env (Value.pstr (PyStr.binary b)) args kwargs st
      = openBranch env (PyStr.binary b) args kwargs st := rfl

/-- C10: called on the empty input list, `open_files` raises the ValueError
of unpacking zero resolved pairs instead of yielding an empty sequence of
streams: the result is that error, whatever the scope body is, so the body
is never entered. -/
theorem C10_empty {α : Type} (env : Env) (args : Args) (kwargs : KwArgs)
    (body : List Stream' → St → St × Except PyErr α) (st : St) :
    open_files env [] args kwargs body st
      = (st, Except.error (PyErr.valueError "not enough values to unpack")) := rfl

/-- C2: after a successful resolution, `open_file` returns exactly the body
outcome (a body failure is not swallowed), appends exactly one close of the
resolved stream when the ownership flag is true — on the normal and on the
raising exit path alike — and performs nothing at all at exit when the
ownership flag is false. -/
theorem C2_close_once {α : Type} (env : Env) (v : Value) (args : Args) (kwargs : KwArgs)
    (body : Stream' → St → St × Except PyErr α) (st st1 : St) (fh : Stream') (own : Bool)
    (hres : _get_filehandle env v args kwargs st = (st1, Except.ok (fh, own))) :
    (open_file env v args kwargs body st).2 = (body fh st1).2
    ∧ (open_file env v args kwargs body st).1.log
        = (if own = true then (body fh st1).1.log ++ [Call.closeCall fh.id]
           else (body fh st1).1.log)
    ∧ (own = true →
        closeCount (open_file env v args kwargs body st).1.log fh.id
          = closeCount (body fh st1).1.log fh.id + 1)
    ∧ (own = false → (open_file env v args kwargs body st).1 = (body fh st1).1) := by
  have hopen : open_file env v args kwargs body st
      = (if own = true then pushCall (Call.closeCall fh.id) (body fh st1).1
         else (body fh st1).1, (body fh st1).2) := by
    unfold open_file
    rw [hres]
  refine ⟨by rw [hopen], ?_, ?_, ?_⟩
  · rw [hopen]
    cases own <;> simp [pushCall]
  · intro h
    subst h
    rw [hopen]
    simp [pushCall, closeCount_closeCall]
  · intro h
    subst h
    rw [hopen]
    simp

/-- C2 witness: an owned open of "a.txt" whose scope body raises; the body
error propagates and the close is still appended exactly once. -/
theorem C2_witness :
    (open_file envAll (Value.pstr (PyStr.text "a.txt")) [] [] bodyRaise st0).2
        = (bodyRaise { id := 0, kind := StreamKind.fileStream (PyStr.text "a.txt") }
            { nextId := 1, log := [Call.openCall (PyStr.text "a.txt") [] []] }).2
    ∧ (open_file envAll (Value.pstr (PyStr.text "a.txt")) [] [] bodyRaise st0).1.log
        = (if true = true then
            (bodyRaise { id := 0, kind := StreamKind.fileStream (PyStr.text "a.txt") }
              { nextId := 1, log := [Call.openCall (PyStr.text "a.txt") [] []] }).1.log
              ++ [Call.closeCall 0]
           else
            (bodyRaise { id := 0, kind := StreamKind.fileStream (PyStr.text "a.txt") }
              { nextId := 1, log := [Call.openCall (PyStr.text "a.txt") [] []] }).1.log)
    ∧ (true = true →
        closeCount (open_file envAll (Value.pstr (PyStr.text "a.txt")) [] [] bodyRaise st0).1.log 0
          = closeCount
              (bodyRaise { id := 0, kind := StreamKind.fileStream (PyStr.text "a.txt") }
                { nextId := 1, log := [Call.openCall (PyStr.text "a.txt") [] []] }).1.log 0 + 1)
    ∧ (true = false →
        (open_file envAll (Value.pstr (PyStr.text "a.txt")) [] [] bodyRaise st0).1
          = (bodyRaise { id := 0, kind := StreamKind.fileStream (PyStr.text "a.txt") }
              { nextId := 1, log := [Call.openCall (PyStr.text "a.txt") [] []] }).1) :=
  C2_close_once envAll (Value.pstr (PyStr.text "a.txt")) [] [] bodyRaise st0
    { nextId := 1, log := [Call.openCall (PyStr.text "a.txt") [] []] }
    { id := 0, kind := StreamKind.fileStream (PyStr.text "a.txt") } true rfl

/-- C4: for a text string whose parsed scheme is http or https, a GET
answered with a 4xx/5xx status makes `open_file` abort with the HTTP error
before any stream is yielded — the result does not depend on the scope body
— while a success status yields a fresh in-memory byte stream wrapping the
response body, with ownership true, so the stream is closed at scope exit. -/
theorem C4_http {α : Type} (env : Env) (u : String) (args : Args) (kwargs : KwArgs)
    (body : Stream' → St → St × Except PyErr α) (st : St) (status : Nat) (content : String)
    (hscheme : memHttpHttps (urlparseScheme (PyStr.text u)) = true)
    (hget : env.getResult (PyStr.text u) kwargs = some (status, content)) :
    ((400 ≤ status ∧ status < 600) →
        open_file env (Value.pstr (PyStr.text u)) args kwargs body st
          = (pushCall (Call.getCall (PyStr.text u) kwargs) st,
             Except.error (PyErr.httpError status)))
    ∧ (¬ (400 ≤ status ∧ status < 600) →
        open_file env (Value.pstr (PyStr.text u)) args kwargs body st
          = (pushCall (Call.closeCall st.nextId)
               (body { id := st.nextId, kind := StreamKind.memBytes content }
                 { nextId := st.nextId + 1,
                   log := st.log ++ [Call.getCall (PyStr.text u) kwargs] }).1,
             (body { id := st.nextId, kind := StreamKind.memBytes content }
               { nextId := st.nextId + 1,
                 log := st.log ++ [Call.getCall (PyStr.text u) kwargs] }).2)) := by
  have hgf : _get_filehandle env (Value.pstr (PyStr.text u)) args kwargs st
      = getBranch env (PyStr.text u) kwargs st := by
    rw [get_filehandle_pstr, if_pos hscheme]
  constructor
  · intro hs
    have hr : _get_filehandle env (Value.pstr (PyStr.text u)) args kwargs st
        = (pushCall (Call.getCall (PyStr.text u) kwargs) st,
           Except.error (PyErr.httpError status)) := by
      rw [hgf]
      unfold getBranch
      rw [hget]
      simp [hs]
    unfold open_file
    rw [hr]
  · intro hs
    have hr : _get_filehandle env (Value.pstr (PyStr.text u)) args kwargs st
        = ({ nextId := st.nextId + 1, log := st.log ++ [Call.getCall (PyStr.text u) kwargs] },
           Except.ok ({ id := st.nextId, kind := StreamKind.memBytes content }, true)) := by
      rw [hgf]
      unfold getBranch
      rw [hget]
      simp [hs, pushCall]
    unfold open_file
    rw [hr]
    simp [pushCall]

/-- C4 witness: a 404 on "http://u" aborts before the raising body runs,
and a 200 with body "abc" yields the in-memory byte stream and closes it. -/
theorem C4_witness :
    (open_file envErr (Value.pstr (PyStr.text "http://u")) [] [] bodyRaise st0
        = (pushCall (Call.getCall (PyStr.text "http://u") []) st0,
           Except.error (PyErr.httpError 404)))
    ∧ (open_file envAll (Value.pstr (PyStr.text "http://u")) [] [] bodyRaise st0
        = (pushCall (Call.closeCall 0)
             (bodyRaise { id := 0, kind := StreamKind.memBytes "abc" }
               { nextId := 1, log := [Call.getCall (PyStr.text "http://u") []] }).1,
           (bodyRaise { id := 0, kind := StreamKind.memBytes "abc" }
             { nextId := 1, log := [Call.getCall (PyStr.text "http://u") []] }).2)) :=
  ⟨(C4_http envErr "http://u" [] [] bodyRaise st0 404 "" rfl rfl).1 (by decide),
   (C4_http envAll "http://u" [] [] bodyRaise st0 200 "abc" rfl rfl).2 (by decide)⟩

/-- C8: for a string input classified as a filesystem path, both the
positional and the keyword open options are forwarded verbatim to the
native open call; for a string input classified as an http/https URL, the
keyword options dictionary is forwarded to the GET call instead. -/
theorem C8_options (env : Env) (ps : PyStr) (args : Args) (kwargs : KwArgs) (st : St) :
    (memHttpHttps (urlparseScheme ps) = false →
        (_get_filehandle env (Value.pstr ps) args kwargs st).1.log
          = st.log ++ [Call.openCall ps args kwargs])
    ∧ (memHttpHttps (urlparseScheme ps) = true →
        (_get_filehandle env (Value.pstr ps) args kwargs st).1.log
          = st.log ++ [Call.getCall ps kwargs]) := by
  constructor
  · intro h
    rw [get_filehandle_pstr, h]
    simp [openBranch_log]
  · intro h
    rw [get_filehandle_pstr, if_pos h, getBranch_log]

/-- C8 witness: the path "a.txt" forwards its mode argument and buffering
option to open; the URL "https://y" forwards its auth option to the GET. -/
theorem C8_witness :
    ((_get_filehandle envAll (Value.pstr (PyStr.text "a.txt"))
        ["r"] [("buffering", "1")] st0).1.log
        = st0.log ++ [Call.openCall (PyStr.text "a.txt") ["r"] [("buffering", "1")]])
    ∧ ((_get_filehandle envAll (Value.pstr (PyStr.text "https://y"))
        ["r"] [("auth", "tok")] st0).1.log
        = st0.log ++ [Call.getCall (PyStr.text "https://y") [("auth", "tok")]]) :=
  ⟨(C8_options envAll (PyStr.text "a.txt") ["r"] [("buffering", "1")] st0).1 rfl,
   (C8_options envAll (PyStr.text "https://y") ["r"] [("auth", "tok")] st0).2 rfl⟩

/-- The path branch on a world where the open succeeds: one open call, a
fresh file stream, ownership true. -/
theorem openBranch_some (env : Env) (s : PyStr) (args : Args) (kwargs : KwArgs) (st : St)
    (hopen : env.openResult s args kwargs = some ()) :
    openBranch env s args kwargs st
      = ({ nextId := st.nextId + 1, log := st.log ++ [Call.openCall s args kwargs] },
         Except.ok ({ id := st.nextId, kind := StreamKind.fileStream s }, true)) := by
  unfold openBranch
  rw [hopen]
  simp [pushCall]

/-- Behavior of `_get_filehandle` on a path that opens successfully. -/
theorem get_filehandle_path (env : Env) (p : PyStr) (args : Args) (kwargs : KwArgs) (st : St)
    (hpath : memHttpHttps (urlparseScheme p) = false)
    (hopen : env.openResult p args kwargs = some ()) :
    _get_filehandle env (Value.pstr p) args kwargs st
      = ({ nextId := st.nextId + 1, log := st.log ++ [Call.openCall p args kwargs] },
         Except.ok ({ id := st.nextId, kind := StreamKind.fileStream p }, true)) := by
  rw [get_filehandle_pstr, hpath]
  simp [openBranch_some env p args kwargs st hopen]

/-- One owned path scope around the identity body: it opens a fresh file
stream, returns it, and closes exactly that stream at exit. -/
theorem open_file_idBody_path (env : Env) (p : PyStr) (args : Args) (kwargs : KwArgs)
    (st : St) (hpath : memHttpHttps (urlparseScheme p) = false)
    (hopen : env.openResult p args kwargs = some ()) :
    open_file env (Value.pstr p) args kwargs idBody st
      = ({ nextId := st.nextId + 1,
           log := st.log ++ [Call.openCall p args kwargs, Call.closeCall st.nextId] },
         Except.ok { id := st.nextId, kind := StreamKind.fileStream p }) := by
  unfold open_file
  rw [get_filehandle_path env p args kwargs st hpath hopen]
  simp [idBody, pushCall]

/-- C9: two independent `open_file` scopes over the same owned path do not
interfere: each resolution allocates a fresh stream with a distinct id, and
the combined log shows each scope closing only the stream it opened. -/
theorem C9_independent (env : Env) (p : PyStr) (args : Args) (kwargs : KwArgs) (st : St)
    (hpath : memHttpHttps (urlparseScheme p) = false)
    (hopen : env.openResult p args kwargs = some ()) :
    (open_file env (Value.pstr p) args kwargs idBody st).2
        = Except.ok { id := st.nextId, kind := StreamKind.fileStream p }
    ∧ (open_file env (Value.pstr p) args kwargs idBody
          ((open_file env (Value.pstr p) args kwargs idBody st).1)).2
        = Except.ok { id := st.nextId + 1, kind := StreamKind.fileStream p }
    ∧ st.nextId ≠ st.nextId + 1
    ∧ (open_file env (Value.pstr p) args kwargs idBody
          ((open_file env (Value.pstr p) args kwargs idBody st).1)).1.log
        = st.log ++ [Call.openCall p args kwargs, Call.closeCall st.nextId,
                     Call.openCall p args kwargs, Call.closeCall (st.nextId + 1)] := by
  have h1 := open_file_idBody_path env p args kwargs st hpath hopen
  have h2 := open_file_idBody_path env p args kwargs
    { nextId := st.nextId + 1,
      log := st.log ++ [Call.openCall p args kwargs, Call.closeCall st.nextId] } hpath hopen
  refine ⟨by rw [h1], ?_, Nat.ne_of_lt (Nat.lt_succ_self _), ?_⟩
  · rw [h1]
    dsimp only
    rw [h2]
  · rw [h1]
    dsimp only
    rw [h2]
    simp

/-- C5 counterexample: on the empty input list `open_files` yields no
sequence of streams at all: with a scope body that returns 7 the claimed
yield would force the ok result 7, but the code raises the unpacking
ValueError with the state untouched. -/
theorem C5_counterexample :
    open_files envAll ([] : List Value) [] [] body7 st0
      = (st0, Except.error (PyErr.valueError "not enough values to unpack"))
    ∧ (open_files envAll ([] : List Value) [] [] body7 st0).2 ≠ Except.ok 7 :=
  ⟨rfl, by decide⟩

/-- C5 (amended): for every nonempty input list all of whose elements
resolve successfully, `open_files` yields the streams in input order — one
pair per input element, each pair produced by its own independent
`_get_filehandle` call — and at scope exit appends exactly the closes of
the owned pairs, in that same order. -/
theorem C5_amended {α : Type} (env : Env) (args : Args) (kwargs : KwArgs)
    (vs : List Value) (body : List Stream' → St → St × Except PyErr α)
    (st st1 : St) (pairs : List (Stream' × Bool))
    (hne : vs ≠ [])
    (hres : resolveList env args kwargs vs st = (st1, Except.ok pairs)) :
    pairs.length = vs.length
    ∧ (∀ q ∈ vs.zip pairs, ∃ stA stB : St,
        _get_filehandle env q.1 args kwargs stA = (stB, Except.ok q.2))
    ∧ open_files env vs args kwargs body st
        = ({ (body (pairs.map Prod.fst) st1).1 with
              log := (body (pairs.map Prod.fst) st1).1.log ++ ownedCloses pairs },
           (body (pairs.map Prod.fst) st1).2) := by
  have hlen := resolveList_ok_length env args kwargs vs st st1 pairs hres
  refine ⟨hlen, resolveList_ok_zip env args kwargs vs st st1 pairs hres, ?_⟩
  unfold open_files
  rw [hres]
  cases pairs with
  | nil =>
      exfalso
      apply hne
      cases vs with
      | nil => rfl
      | cons v vs2 => simp at hlen
  | cons p ps =>
      dsimp only
      rw [closeAll_eq]

/-- C5 witness: the list [path "a.txt", pre-opened stream] resolves to two
pairs; the scope sees both streams and only the owned one is closed. -/
theorem C5_witness :
    open_files envAll [Value.pstr (PyStr.text "a.txt"), Value.stream extStream]
      [] [] body7 st0
      = ({ nextId := 1,
           log := [Call.openCall (PyStr.text "a.txt") [] [], Call.closeCall 0] },
         Except.ok 7) :=
  (C5_amended envAll [] [] [Value.pstr (PyStr.text "a.txt"), Value.stream extStream]
    body7 st0 { nextId := 1, log := [Call.openCall (PyStr.text "a.txt") [] []] }
    [({ id := 0, kind := StreamKind.fileStream (PyStr.text "a.txt") }, true),
     (extStream, false)] (by decide) rfl).2.2

/-- C6 counterexample: resolving the list ["a", "bad"] in a world where
opening "bad" raises opens stream 0 for "a" (owned, as the second conjunct
shows) and then propagates the OSError with no close call in the final log:
the already-opened owned stream is left open, not closed, when the failure
propagates — contrary to the claim. -/
theorem C6_counterexample :
    open_files envBad [Value.pstr (PyStr.text "a"), Value.pstr (PyStr.text "bad")]
      [] [] body7 st0
      = ({ nextId := 1, log := [Call.openCall (PyStr.text "a") [] [],
                                Call.openCall (PyStr.text "bad") [] []] },
         Except.error PyErr.osError)
    ∧ (_get_filehandle envBad (Value.pstr (PyStr.text "a")) [] [] st0).2
        = Except.ok ({ id := 0, kind := StreamKind.fileStream (PyStr.text "a") }, true)
    ∧ closeCount [Call.openCall (PyStr.text "a") [] [],
                  Call.openCall (PyStr.text "bad") [] []] 0 = 0 :=
  ⟨rfl, rfl, rfl⟩

/-- C6 (amended): when resolving an element fails, `open_files` propagates
the resolution error immediately and the close phase never runs: the final
state is the resolution state, whose close counts are unchanged, so owned
streams opened for earlier elements are left open (leaked), not closed,
when the failure propagates. -/
theorem C6_amended {α : Type} (env : Env) (args : Args) (kwargs : KwArgs)
    (vs : List Value) (body : List Stream' → St → St × Except PyErr α)
    (st st1 : St) (e : PyErr)
    (hres : resolveList env args kwargs vs st = (st1, Except.error e)) :
    open_files env vs args kwargs body st = (st1, Except.error e)
    ∧ ∀ i : Nat, closeCount st1.log i = closeCount st.log i := by
  constructor
  · unfold open_files
    rw [hres]
  · intro i
    have h := resolveList_closeCount env args kwargs vs st i
    rw [hres] at h
    exact h

/-- C6 witness: the concrete partial failure on ["a", "bad"], run through
the amended statement. -/
theorem C6_witness :
    open_files envBad [Value.pstr (PyStr.text "a"), Value.pstr (PyStr.text "bad")]
      [] [] body7 st0
      = ({ nextId := 1, log := [Call.openCall (PyStr.text "a") [] [],
                                Call.openCall (PyStr.text "bad") [] []] },
         Except.error PyErr.osError) :=
  (C6_amended envBad [] [] [Value.pstr (PyStr.text "a"), Value.pstr (PyStr.text "bad")]
    body7 st0
    { nextId := 1, log := [Call.openCall (PyStr.text "a") [] [],
                           Call.openCall (PyStr.text "bad") [] []] }
    PyErr.osError rfl).1

/-- C9 witness: opening "a.txt" in two nested-in-sequence scopes from the
initial state yields streams 0 and 1 and the log closes each exactly once. -/
theorem C9_witness :
    (open_file envAll (Value.pstr (PyStr.text "a.txt")) [] [] idBody st0).2
        = Except.ok { id := 0, kind := StreamKind.fileStream (PyStr.text "a.txt") }
    ∧ (open_file envAll (Value.pstr (PyStr.text "a.txt")) [] [] idBody
          ((open_file envAll (Value.pstr (PyStr.text "a.txt")) [] [] idBody st0).1)).2
        = Except.ok { id := 1, kind := StreamKind.fileStream (PyStr.text "a.txt") }
    ∧ (0 : Nat) ≠ 1
    ∧ (open_file envAll (Value.pstr (PyStr.text "a.txt")) [] [] idBody
          ((open_file envAll (Value.pstr (PyStr.text "a.txt")) [] [] idBody st0).1)).1.log
        = [Call.openCall (PyStr.text "a.txt") [] [], Call.closeCall 0,
           Call.openCall (PyStr.text "a.txt") [] [], Call.closeCall 1] :=
  C9_independent envAll (PyStr.text "a.txt") [] [] st0 rfl rfl

end Skbio
